import Mathlib

/-!
Verification of the `FireCrawlLoader` document-loader adapter
(`libs/community/langchain_community/document_loaders/firecrawl.py`).

The adapter is a mode-dispatching normalization layer over an external
crawling client.  We embed it shallowly:

* Python parameter values (`params` dict entries) become the inductive
  `PValue`; a Python dict becomes an association list with first-match
  lookup.
* A result object of the external client (attributes `markdown`, `html`,
  `rawHtml`, `metadata`, any of which may be missing) becomes
  `FirecrawlItem`, with `Option` fields (`none` = attribute absent, or
  present with value `None`, which the code treats identically).
* The external client `FirecrawlApp` becomes a structure of response
  functions (a mock); `lazy_load` additionally returns the list of
  external calls it made, so that theorems can inspect the arguments the
  external operations received.
* The external `ScrapeOptions` type is opaque; its availability
  (importability) and its fallible constructor are parameters of
  `lazy_load`, since both live outside this repository.
* Exceptions become `Except`: `ValueError` from argument validation is
  `invalidArgument`, an error escaping from the external `ScrapeOptions`
  constructor is `upstream`.
-/

set_option autoImplicit false

namespace Firecrawl

/-- A Python value appearing in the `params` mapping or in metadata. -/
inductive PValue where
  | int (n : Int)
  | str (s : String)
  | bool (b : Bool)
  | list (xs : List PValue)
  | dict (kvs : List (String × PValue))

/-- A Python `dict` with string keys, as an association list. -/
abbrev Params := List (String × PValue)

/-- Dictionary lookup: `d[k]` / `k in d` (first matching key). -/
def plookup (ps : Params) (k : String) : Option PValue :=
  (List.find? (fun kv => kv.1 == k) ps).map Prod.snd

/-- Python truthiness of an optional string attribute value:
`None` and the absent default are falsy, `""` is falsy. -/
def strTruthy : Option String → Bool
  | some s => s ≠ ""
  | none => false

/-- Python `a or b` where `a` is an optional string and `b` a string:
the value of `a` when truthy, otherwise `b`. -/
def pyOrStr (a : Option String) (b : String) : String :=
  match a with
  | some s => if s = "" then b else s
  | none => b

/-- A result object returned by the external client for scrape, crawl and
search modes.  Each field is the value of the corresponding attribute;
`none` stands for an absent attribute (or one holding Python `None`,
which every use site treats the same way). -/
structure FirecrawlItem where
  markdown : Option String
  html : Option String
  rawHtml : Option String
  metadata : Option (List (String × PValue))

/-- `getattr(doc, "markdown", None) or getattr(doc, "html", None) or
getattr(doc, "rawHtml", "")` (firecrawl.py lines 194-196). -/
def resolvedContent (it : FirecrawlItem) : String :=
  pyOrStr it.markdown (pyOrStr it.html (it.rawHtml.getD ""))

/-- `getattr(doc, "metadata", {}) or {}` (firecrawl.py line 197); a present
empty mapping is falsy in Python and the `or {}` maps it to the same
empty mapping. -/
def resolvedMetadata (it : FirecrawlItem) : List (String × PValue) :=
  it.metadata.getD []

/-- The opaque external `ScrapeOptions` value; we only record the mapping
it was built from. -/
structure ScrapeOptions where
  fromDict : List (String × PValue)

/-- Outcome of `ScrapeOptions(**d)` as modelled for the external library:
either a value, or an error message (e.g. a validation error) that the
Python call would raise. -/
def ScrapeOptionsCtor := List (String × PValue) → Except String ScrapeOptions

/-- What crawl mode passes as `scrape_options`: either a constructed
`ScrapeOptions` value, or (fallback) the raw value of
`params["scrapeOptions"]`. -/
inductive ScrapeOptionsArg where
  | opts (v : ScrapeOptions)
  | raw (v : PValue)

/-- The keyword arguments assembled for `crawl_url`
(firecrawl.py lines 138-163); a `none` field is a keyword that is not
passed. -/
structure CrawlKwargs where
  max_depth : Option PValue
  limit : Option PValue
  include_paths : Option PValue
  exclude_paths : Option PValue
  allow_external_links : Option PValue
  allow_backward_links : Option PValue
  ignore_sitemap : Option PValue
  scrape_options : Option ScrapeOptionsArg

/-- An invocation of one of the five external operations, with the
arguments it received. -/
inductive ExternalCall where
  | scrapeCall (url : String) (opts : Option ScrapeOptions)
  | crawlCall (url : String) (kwargs : CrawlKwargs)
  | mapCall (url : String) (params : Params)
  | extractCall (urls : List String) (params : Params)
  | searchCall (query : Option PValue) (params : Params)

/-- The external client, as a mock: one response function per operation.
`crawl_url` returns `none` when the response object has no `data`
attribute. -/
structure FirecrawlApp where
  scrape_url : String → Option ScrapeOptions → FirecrawlItem
  crawl_url : String → CrawlKwargs → Option (List FirecrawlItem)
  map_url : String → Params → List String
  extract : List String → Params → PValue
  search : Option PValue → Params → List FirecrawlItem

mutual

/-- Model of Python `str(...)` applied to the external extraction result:
strings render as themselves, numbers in decimal, booleans as
`True`/`False`, containers by a bracketed join of their elements. -/
def pyStr : PValue → String
  | .int n => toString n
  | .str s => s
  | .bool b => cond b "True" "False"
  | .list xs => "[" ++ String.intercalate ", " (pyStrList xs) ++ "]"
  | .dict kvs => "\x7b" ++ String.intercalate ", " (pyStrKvs kvs) ++ "\x7d"

/-- Renders each element of a Python list for `pyStr`. -/
def pyStrList : List PValue → List String
  | [] => []
  | v :: vs => pyStr v :: pyStrList vs

/-- Renders each key/value entry of a Python dict for `pyStr`. -/
def pyStrKvs : List (String × PValue) → List String
  | [] => []
  | (k, v) :: kvs => (k ++ ": " ++ pyStr v) :: pyStrKvs kvs

end

/-- An item of the sequence the dispatch produced (`firecrawl_docs`):
either a client result object, or a plain string (map and extract
modes). -/
inductive FDoc where
  | item (it : FirecrawlItem)
  | text (s : String)

/-- The emitted `Document` (firecrawl.py lines 200-203).  `page_content`
keeps the `FDoc` shape because for map and extract modes the code uses
the raw item itself as content. -/
structure Document where
  page_content : FDoc
  metadata : List (String × PValue)

/-- Python truthiness of a candidate `page_content`: an empty string is
falsy, any other string truthy, a result object always truthy. -/
def fdocTruthy : FDoc → Bool
  | .text s => s ≠ ""
  | .item _ => true

/-- The `page_content` the loop body assigns (firecrawl.py lines 190-196):
the raw item for map and extract modes, otherwise the attribute-based
resolution (on a plain string all three attributes are absent, so the
value is the `""` default). -/
def pageContentOf (mode : String) (doc : FDoc) : FDoc :=
  if mode == "map" || mode == "extract" then
    doc
  else
    match doc with
    | .item it => .text (resolvedContent it)
    | .text _ => .text ""

/-- The `metadata` the loop body assigns (firecrawl.py lines 192, 197). -/
def metadataOf (mode : String) (doc : FDoc) : List (String × PValue) :=
  if mode == "map" || mode == "extract" then
    []
  else
    match doc with
    | .item it => resolvedMetadata it
    | .text _ => []

/-- One iteration of the normalization loop (firecrawl.py lines 189-203):
resolve content and metadata according to the mode, skip when the
content is falsy (`if not page_content: continue`). -/
def normalizeOne (mode : String) (doc : FDoc) : Option Document :=
  if fdocTruthy (pageContentOf mode doc) then
    some ⟨pageContentOf mode doc, metadataOf mode doc⟩
  else
    none

/-- The whole normalization loop over `firecrawl_docs`. -/
def normalize (mode : String) (docs : List FDoc) : List Document :=
  docs.filterMap (normalizeOne mode)

/-- Errors the adapter itself can raise at construction time. -/
inductive InitError where
  | dependencyUnavailable
  | invalidArgument (msg : String)
  deriving Repr, DecidableEq

/-- Errors surfacing from `lazy_load`. -/
inductive LoadError where
  | invalidArgument (msg : String)
  | upstream (msg : String)
  deriving Repr, DecidableEq

/-- The constructed loader.  `api_key` and `api_url` are the arguments the
constructor hands to the external `FirecrawlApp(api_key=..., api_url=...)`
client. -/
structure Loader where
  url : String
  mode : String
  params : Params
  api_key : Option String
  api_url : Option String

/-- Modelled from the spec: `get_from_env` of `langchain_core.utils` is
not part of this repository (src/ holds only firecrawl.py); per the spec
it yields "an API key value read from a named environment variable when
not passed explicitly", with resolution failure deferred to the
underlying service client.  `env` is the value of `FIRECRAWL_API_KEY`. -/
def get_from_env (env : Option String) : Option String :=
  env

/-- `api_key or get_from_env("api_key", "FIRECRAWL_API_KEY")`
(firecrawl.py line 110): the explicit argument when truthy, otherwise
the environment value. -/
def resolveApiKey (api_key : Option String) (env : Option String) : Option String :=
  match api_key with
  | some s => if s = "" then get_from_env env else some s
  | none => get_from_env env

/-- Arguments of `FireCrawlLoader.__init__`. -/
structure InitArgs where
  url : String
  api_key : Option String
  api_url : Option String
  mode : String
  params : Option Params

/-- The tuple of the `mode not in (...)` check on firecrawl.py line 101,
verbatim ("search" listed twice, as in the source). -/
def allowedModes : List String :=
  ["crawl", "scrape", "search", "map", "extract", "search"]

/-- `FireCrawlLoader.__init__` (firecrawl.py lines 67-114).  `avail` says
whether the external `firecrawl` package can be imported; `env` is the
`FIRECRAWL_API_KEY` environment variable. -/
def init (avail : Bool) (env : Option String) (a : InitArgs) : Except InitError Loader :=
  if !avail then
    .error .dependencyUnavailable
  else if !(allowedModes.contains a.mode) then
    .error (.invalidArgument ("Invalid mode " ++ a.mode))
  else if a.url = "" then
    .error (.invalidArgument "Url must be provided")
  else
    .ok ⟨a.url, a.mode, a.params.getD [], resolveApiKey a.api_key env, a.api_url⟩

/-- Scrape mode's `scrapeOptions` handling (firecrawl.py lines 118-125):
when the key is present, try to import `ScrapeOptions` and build it;
an `ImportError` is swallowed (`except ImportError: pass`), leaving the
options `None`; any error from the constructor itself propagates.
`importOK` says whether `from firecrawl import ScrapeOptions` succeeds;
using `**` on a non-mapping raises, which also propagates. -/
def scrapeModeOptions (importOK : Bool) (ctor : ScrapeOptionsCtor) (params : Params) :
    Except LoadError (Option ScrapeOptions) :=
  match plookup params "scrapeOptions" with
  | none => .ok none
  | some v =>
    if importOK then
      match v with
      | .dict d =>
        match ctor d with
        | .ok so => .ok (some so)
        | .error msg => .error (.upstream msg)
      | _ => .error (.upstream "TypeError: argument after ** must be a mapping")
    else
      .ok none

/-- Crawl mode's `scrapeOptions` handling (firecrawl.py lines 156-163):
on `ImportError` the raw value of `params["scrapeOptions"]` is passed
instead (`# Fallback: pass as dict`); any error from the constructor
itself propagates. -/
def crawlModeOptions (importOK : Bool) (ctor : ScrapeOptionsCtor) (params : Params) :
    Except LoadError (Option ScrapeOptionsArg) :=
  match plookup params "scrapeOptions" with
  | none => .ok none
  | some v =>
    if importOK then
      match v with
      | .dict d =>
        match ctor d with
        | .ok so => .ok (some (.opts so))
        | .error msg => .error (.upstream msg)
      | _ => .error (.upstream "TypeError: argument after ** must be a mapping")
    else
      .ok (some (.raw v))

/-- The keyword translation of crawl mode (firecrawl.py lines 138-154)
together with the `scrape_options` slot. -/
def buildCrawlKwargs (params : Params) (so : Option ScrapeOptionsArg) : CrawlKwargs :=
  ⟨plookup params "maxDepth",
   plookup params "limit",
   plookup params "includePaths",
   plookup params "excludePaths",
   plookup params "allowExternalLinks",
   plookup params "allowBackwardLinks",
   plookup params "ignoreSitemap",
   so⟩

/-- `FireCrawlLoader.lazy_load` (firecrawl.py lines 116-203).  Returns the
external calls made (exactly one on success) and the emitted documents,
or the error raised.  `importOK`/`ctor` model the external
`ScrapeOptions` import and constructor, `app` the external client. -/
def lazy_load (app : FirecrawlApp) (importOK : Bool) (ctor : ScrapeOptionsCtor)
    (L : Loader) : Except LoadError (List ExternalCall × List Document) :=
  if L.mode == "scrape" then
    match scrapeModeOptions importOK ctor L.params with
    | .error e => .error e
    | .ok so =>
      let docs := [FDoc.item (app.scrape_url L.url so)]
      .ok ([.scrapeCall L.url so], normalize L.mode docs)
  else if L.mode == "crawl" then
    if L.url = "" then
      .error (.invalidArgument "URL is required for crawl mode")
    else
      match crawlModeOptions importOK ctor L.params with
      | .error e => .error e
      | .ok soArg =>
        let kw := buildCrawlKwargs L.params soArg
        let docs := ((app.crawl_url L.url kw).getD []).map FDoc.item
        .ok ([.crawlCall L.url kw], normalize L.mode docs)
  else if L.mode == "map" then
    if L.url = "" then
      .error (.invalidArgument "URL is required for map mode")
    else
      let docs := (app.map_url L.url L.params).map FDoc.text
      .ok ([.mapCall L.url L.params], normalize L.mode docs)
  else if L.mode == "extract" then
    if L.url = "" then
      .error (.invalidArgument "URL is required for extract mode")
    else
      let docs := [FDoc.text (pyStr (app.extract [L.url] L.params))]
      .ok ([.extractCall [L.url] L.params], normalize L.mode docs)
  else if L.mode == "search" then
    let q := plookup L.params "query"
    let docs := (app.search q L.params).map FDoc.item
    .ok ([.searchCall q L.params], normalize L.mode docs)
  else
    .error (.invalidArgument ("Invalid mode " ++ L.mode))

/-! ## Concrete mock fixtures -/

/-- A mock client whose five operations return fixed responses. -/
def mkApp (scr : FirecrawlItem) (cr : Option (List FirecrawlItem)) (mp : List String)
    (ex : PValue) (se : List FirecrawlItem) : FirecrawlApp :=
  ⟨fun _ _ => scr, fun _ _ => cr, fun _ _ => mp, fun _ _ => ex, fun _ _ => se⟩

/-- A result object with none of the four attributes present. -/
def emptyItem : FirecrawlItem := ⟨none, none, none, none⟩

/-- A result object carrying only a markdown attribute. -/
def mdItem (s : String) : FirecrawlItem := ⟨some s, none, none, none⟩

/-- A `ScrapeOptions` constructor that always succeeds. -/
def okCtor : ScrapeOptionsCtor := fun d => .ok ⟨d⟩

/-- A `ScrapeOptions` constructor that always raises a validation error. -/
def failCtor : ScrapeOptionsCtor := fun _ => .error "ValidationError"

/-- The URL used by the concrete scenarios. -/
def xurl : String := "https://example.com"

/-- Mock whose scrape operation returns an item with `markdown="abc"`. -/
def scrapeAbcApp : FirecrawlApp := mkApp (mdItem "abc") none [] (.str "") []

/-- Mock whose crawl response `data` holds three items: two with non-empty
markdown and one with all content fields empty. -/
def crawl3App : FirecrawlApp :=
  mkApp emptyItem (some [mdItem "one", emptyItem, mdItem "two"]) [] (.str "") []

/-- Mock whose map operation returns the plain strings `["a", "b"]`. -/
def mapApp : FirecrawlApp := mkApp emptyItem none ["a", "b"] (.str "") []

/-- Mock whose search operation returns one item with markdown. -/
def searchApp : FirecrawlApp := mkApp emptyItem none [] (.str "") [mdItem "hit"]

/-- A crawl-mode loader over `xurl` with the given params. -/
def crawlLoader (ps : Params) : Loader := ⟨xurl, "crawl", ps, none, none⟩

/-! ## Helper lemmas -/

/-- Membership in the source's mode tuple (which lists "search" twice) is
membership in the five-element mode set. -/
theorem mem_allowedModes (m : String) :
    m ∈ allowedModes ↔
      m ∈ (["scrape", "crawl", "map", "extract", "search"] : List String) := by
  simp only [allowedModes, List.mem_cons, List.not_mem_nil, or_false]
  tauto

/-- A record is only ever produced from the truthiness branch, so its
content is truthy. -/
theorem normalizeOne_truthy (mode : String) (doc : FDoc) (d : Document)
    (h : normalizeOne mode doc = some d) : fdocTruthy d.page_content = true := by
  unfold normalizeOne at h
  by_cases ht : fdocTruthy (pageContentOf mode doc) = true
  · rw [if_pos ht] at h
    injection h with h2
    subst h2
    exact ht
  · rw [if_neg ht] at h
    exact Option.noConfusion h

/-- In map or extract mode a plain-string item is kept verbatim with
empty metadata exactly when it is non-empty. -/
theorem normalizeOne_text_mapext (mode : String)
    (hm : (mode == "map" || mode == "extract") = true) (s : String) :
    normalizeOne mode (.text s) = if s = "" then none else some ⟨.text s, []⟩ := by
  unfold normalizeOne pageContentOf metadataOf
  rw [hm]
  by_cases hs : s = "" <;> simp [fdocTruthy, hs]

/-- Unfolding of the normalization loop on a cons cell. -/
theorem normalize_cons (mode : String) (d : FDoc) (ds : List FDoc) :
    normalize mode (d :: ds) =
      match normalizeOne mode d with
      | some r => r :: normalize mode ds
      | none => normalize mode ds := by
  simp only [normalize, List.filterMap_cons]
  cases normalizeOne mode d <;> rfl

/-- The normalization loop over plain-string items in map or extract mode
keeps the non-empty strings, in order, as content with empty metadata. -/
theorem normalize_text_filter (mode : String)
    (hm : (mode == "map" || mode == "extract") = true) (ss : List String) :
    normalize mode (ss.map FDoc.text) =
      ss.filterMap (fun s => if s = "" then none else some ⟨.text s, []⟩) := by
  induction ss with
  | nil => rfl
  | cons s rest ih =>
    rw [List.map_cons, normalize_cons, normalizeOne_text_mapext mode hm s,
      List.filterMap_cons]
    by_cases hs : s = "" <;> simp [hs, ih]

/-! ## Claims -/

/-- C1: for every loaded item in scrape, crawl or search mode, the record
content is the first non-empty of the item's `markdown`, `html` and
`rawHtml` fields checked in that order (empty string if none is
present), and its metadata is the item's `metadata` field, or the empty
mapping when that field is absent or null (both rendered as `none`);
in particular a scrape item with `markdown="abc"` yields exactly one
record with content `"abc"`. -/
theorem scrape_content_first_nonempty_field :
    (∀ it : FirecrawlItem,
        resolvedContent it =
          (([it.markdown, it.html, it.rawHtml].filterMap id).filter
              (fun s => !(s == ""))).headD "") ∧
    (∀ it : FirecrawlItem, resolvedMetadata it = it.metadata.getD []) ∧
    (∀ (mode : String) (it : FirecrawlItem),
        (mode == "map" || mode == "extract") = false →
        normalizeOne mode (.item it) =
          if resolvedContent it = "" then none
          else some ⟨.text (resolvedContent it), resolvedMetadata it⟩) ∧
    lazy_load scrapeAbcApp true okCtor ⟨xurl, "scrape", [], none, none⟩ =
      .ok ([.scrapeCall xurl none], [⟨.text "abc", []⟩]) := by
  refine ⟨?_, fun it => rfl, ?_, rfl⟩
  · intro it
    rcases it with ⟨md, ht, rw, m⟩
    rcases md with _ | s1 <;> rcases ht with _ | s2 <;> rcases rw with _ | s3 <;>
        (try by_cases h1 : s1 = "") <;> (try by_cases h2 : s2 = "") <;>
        (try by_cases h3 : s3 = "") <;>
      simp_all [resolvedContent, pyOrStr]
  · intro mode it hm
    unfold normalizeOne pageContentOf metadataOf
    rw [hm]
    by_cases hs : resolvedContent it = "" <;> simp [fdocTruthy, hs]

/-- Witness for C1: the normalization conjunct applied in scrape mode to
the item with `markdown="abc"`. -/
theorem scrape_content_first_nonempty_field_witness :
    normalizeOne "scrape" (.item (mdItem "abc")) =
      if resolvedContent (mdItem "abc") = "" then none
      else some ⟨.text (resolvedContent (mdItem "abc")), resolvedMetadata (mdItem "abc")⟩ :=
  scrape_content_first_nonempty_field.2.2.1 "scrape" (mdItem "abc") rfl

/-- C2: every emitted record has truthy (non-empty) content, the
normalization loop distributes over concatenation (so records keep the
relative order of their source items and empty items are skipped, not
emitted), and the concrete three-item crawl response with one
all-empty item yields exactly two records in original order. -/
theorem emitted_records_nonempty_in_order :
    (∀ (mode : String) (docs : List FDoc),
        (normalize mode docs).all (fun d => fdocTruthy d.page_content) = true) ∧
    (∀ (mode : String) (ds1 ds2 : List FDoc),
        normalize mode (ds1 ++ ds2) = normalize mode ds1 ++ normalize mode ds2) ∧
    lazy_load crawl3App true okCtor (crawlLoader []) =
      .ok ([.crawlCall xurl ⟨none, none, none, none, none, none, none, none⟩],
           [⟨.text "one", []⟩, ⟨.text "two", []⟩]) := by
  refine ⟨?_, ?_, rfl⟩
  · intro mode docs
    rw [List.all_eq_true]
    intro d hd
    simp only [normalize] at hd
    rcases List.mem_filterMap.mp hd with ⟨doc, -, h⟩
    exact normalizeOne_truthy mode doc d h
  · intro mode ds1 ds2
    simp [normalize]

/-- C3: with the external client available and a non-empty url,
construction succeeds exactly when the mode is one of the five values
scrape, crawl, map, extract, search; any other mode string fails with
InvalidArgument at construction, and also defensively at dispatch time
in `lazy_load`. -/
theorem mode_validation_construction_and_dispatch :
    (∀ (a : InitArgs) (env : Option String), a.url ≠ "" →
        ((∃ L, init true env a = .ok L) ↔
          a.mode ∈ (["scrape", "crawl", "map", "extract", "search"] : List String))) ∧
    (∀ (a : InitArgs) (env : Option String),
        a.mode ∉ (["scrape", "crawl", "map", "extract", "search"] : List String) →
        init true env a = .error (.invalidArgument ("Invalid mode " ++ a.mode))) ∧
    (∀ (app : FirecrawlApp) (importOK : Bool) (ctor : ScrapeOptionsCtor) (L : Loader),
        L.mode ∉ (["scrape", "crawl", "map", "extract", "search"] : List String) →
        lazy_load app importOK ctor L =
          .error (.invalidArgument ("Invalid mode " ++ L.mode))) := by
  refine ⟨?_, ?_, ?_⟩
  · intro a env hurl
    constructor
    · rintro ⟨L, hL⟩
      by_cases hm : a.mode ∈ allowedModes
      · exact (mem_allowedModes a.mode).mp hm
      · rw [init] at hL
        simp [hm] at hL
    · intro hm
      have hc := (mem_allowedModes a.mode).mpr hm
      refine ⟨⟨a.url, a.mode, a.params.getD [], resolveApiKey a.api_key env, a.api_url⟩, ?_⟩
      rw [init]
      simp [hc, hurl]
  · intro a env hm
    have hc : a.mode ∉ allowedModes :=
      fun h => hm ((mem_allowedModes a.mode).mp h)
    rw [init]
    simp [hc]
  · intro app importOK ctor L hm
    have h1 : L.mode ≠ "scrape" := fun h => hm (by simp [h])
    have h2 : L.mode ≠ "crawl" := fun h => hm (by simp [h])
    have h3 : L.mode ≠ "map" := fun h => hm (by simp [h])
    have h4 : L.mode ≠ "extract" := fun h => hm (by simp [h])
    have h5 : L.mode ≠ "search" := fun h => hm (by simp [h])
    rw [lazy_load]
    simp [h1, h2, h3, h4, h5]

/-- Witness for C3: with url `"https://example.com"`, mode `"scrape"`
constructs successfully (the membership side of the equivalence holds),
and mode `"fetch"` is rejected at construction and at dispatch. -/
theorem mode_validation_witness :
    ((∃ L, init true none ⟨xurl, none, none, "scrape", none⟩ = .ok L) ↔
      "scrape" ∈ (["scrape", "crawl", "map", "extract", "search"] : List String)) ∧
    init true none ⟨xurl, none, none, "fetch", none⟩ =
      .error (.invalidArgument "Invalid mode fetch") ∧
    lazy_load scrapeAbcApp true okCtor ⟨xurl, "fetch", [], none, none⟩ =
      .error (.invalidArgument "Invalid mode fetch") :=
  ⟨mode_validation_construction_and_dispatch.1 ⟨xurl, none, none, "scrape", none⟩ none
      (by decide),
   mode_validation_construction_and_dispatch.2.1 ⟨xurl, none, none, "fetch", none⟩ none
      (by decide),
   mode_validation_construction_and_dispatch.2.2 scrapeAbcApp true okCtor
      ⟨xurl, "fetch", [], none, none⟩ (by decide)⟩

/-- C4: constructing with an empty url string fails with an
InvalidArgument error for every mode value, search included (with the
external client available). -/
theorem empty_url_rejected (a : InitArgs) (env : Option String) (h : a.url = "") :
    ∃ msg, init true env a = .error (.invalidArgument msg) := by
  rw [init]
  by_cases hm : a.mode ∈ allowedModes
  · exact ⟨"Url must be provided", by simp [hm, h]⟩
  · exact ⟨"Invalid mode " ++ a.mode, by simp [hm]⟩

/-- Witness for C4: empty url in search mode is rejected. -/
theorem empty_url_rejected_witness :
    ∃ msg, init true none ⟨"", none, none, "search", none⟩ =
      .error (.invalidArgument msg) :=
  empty_url_rejected ⟨"", none, none, "search", none⟩ none rfl

/-- C5: in crawl mode each recognized key present in `params` is
translated to the external call's parameter name (`maxDepth` to
`max_depth`, `limit` to `limit`, `includePaths` to `include_paths`,
`excludePaths` to `exclude_paths`, `allowExternalLinks` to
`allow_external_links`, `allowBackwardLinks` to `allow_backward_links`,
`ignoreSitemap` to `ignore_sitemap`), keys absent from `params` are not
passed (`none` field), the crawl call receives exactly these kwargs,
and `params = {maxDepth: 2, limit: 10}` produces a crawl call receiving
`max_depth=2` and `limit=10` and nothing else. -/
theorem crawl_key_translation :
    (∀ (ps : Params) (so : Option ScrapeOptionsArg),
        (buildCrawlKwargs ps so).max_depth = plookup ps "maxDepth" ∧
        (buildCrawlKwargs ps so).limit = plookup ps "limit" ∧
        (buildCrawlKwargs ps so).include_paths = plookup ps "includePaths" ∧
        (buildCrawlKwargs ps so).exclude_paths = plookup ps "excludePaths" ∧
        (buildCrawlKwargs ps so).allow_external_links = plookup ps "allowExternalLinks" ∧
        (buildCrawlKwargs ps so).allow_backward_links = plookup ps "allowBackwardLinks" ∧
        (buildCrawlKwargs ps so).ignore_sitemap = plookup ps "ignoreSitemap") ∧
    (∀ (app : FirecrawlApp) (importOK : Bool) (ctor : ScrapeOptionsCtor) (L : Loader)
        (soArg : Option ScrapeOptionsArg),
        L.mode = "crawl" → L.url ≠ "" →
        crawlModeOptions importOK ctor L.params = .ok soArg →
        lazy_load app importOK ctor L =
          .ok ([.crawlCall L.url (buildCrawlKwargs L.params soArg)],
               normalize L.mode
                 (((app.crawl_url L.url (buildCrawlKwargs L.params soArg)).getD []).map
                   FDoc.item))) ∧
    lazy_load crawl3App true okCtor (crawlLoader [("maxDepth", .int 2), ("limit", .int 10)]) =
      .ok ([.crawlCall xurl
              ⟨some (.int 2), some (.int 10), none, none, none, none, none, none⟩],
           [⟨.text "one", []⟩, ⟨.text "two", []⟩]) := by
  refine ⟨fun ps so => ⟨rfl, rfl, rfl, rfl, rfl, rfl, rfl⟩, ?_, rfl⟩
  intro app importOK ctor L soArg hmode hurl hso
  rw [lazy_load]
  simp [hmode, hurl, hso]

/-- Witness for C5: the crawl-call conjunct at the concrete loader of the
`maxDepth`/`limit` scenario. -/
theorem crawl_key_translation_witness :
    lazy_load crawl3App true okCtor (crawlLoader [("maxDepth", .int 2), ("limit", .int 10)]) =
      .ok ([.crawlCall (crawlLoader [("maxDepth", .int 2), ("limit", .int 10)]).url
              (buildCrawlKwargs (crawlLoader [("maxDepth", .int 2), ("limit", .int 10)]).params
                none)],
           normalize (crawlLoader [("maxDepth", .int 2), ("limit", .int 10)]).mode
             (((crawl3App.crawl_url (crawlLoader [("maxDepth", .int 2), ("limit", .int 10)]).url
                  (buildCrawlKwargs
                    (crawlLoader [("maxDepth", .int 2), ("limit", .int 10)]).params
                    none)).getD []).map FDoc.item)) :=
  crawl_key_translation.2.1 crawl3App true okCtor
    (crawlLoader [("maxDepth", .int 2), ("limit", .int 10)]) none rfl (by decide) rfl

/-- C6: in map and extract modes each result item is itself the record's
content string with empty metadata; extract calls the external
extraction with the url wrapped in a one-element list and stringifies
the result into a single item; a map response `["a", "b"]` yields two
records with contents `"a"` and `"b"`, empty metadata, in that
order. -/
theorem map_extract_item_as_content :
    (∀ (app : FirecrawlApp) (importOK : Bool) (ctor : ScrapeOptionsCtor) (L : Loader),
        L.mode = "map" → L.url ≠ "" →
        lazy_load app importOK ctor L =
          .ok ([.mapCall L.url L.params],
               (app.map_url L.url L.params).filterMap
                 (fun s => if s = "" then none else some ⟨.text s, []⟩))) ∧
    (∀ (app : FirecrawlApp) (importOK : Bool) (ctor : ScrapeOptionsCtor) (L : Loader),
        L.mode = "extract" → L.url ≠ "" →
        lazy_load app importOK ctor L =
          .ok ([.extractCall [L.url] L.params],
               if pyStr (app.extract [L.url] L.params) = "" then []
               else [⟨.text (pyStr (app.extract [L.url] L.params)), []⟩])) ∧
    lazy_load mapApp true okCtor ⟨xurl, "map", [], none, none⟩ =
      .ok ([.mapCall xurl []], [⟨.text "a", []⟩, ⟨.text "b", []⟩]) := by
  refine ⟨?_, ?_, rfl⟩
  · intro app importOK ctor L hmode hurl
    rw [lazy_load]
    simp [hmode, hurl, normalize_text_filter "map" rfl]
  · intro app importOK ctor L hmode hurl
    rw [lazy_load]
    have h1 := normalize_text_filter "extract" rfl [pyStr (app.extract [L.url] L.params)]
    simp only [List.map_cons, List.map_nil, List.filterMap_cons, List.filterMap_nil] at h1
    by_cases hs : pyStr (app.extract [L.url] L.params) = "" <;>
      simp_all [hmode, hurl]

/-- Witness for C6: the map conjunct applied at the concrete two-string
mock, and the extract conjunct at a mock whose extraction result
stringifies to a non-empty string. -/
theorem map_extract_item_as_content_witness :
    (lazy_load mapApp true okCtor ⟨xurl, "map", [], none, none⟩ =
      .ok ([.mapCall xurl []],
           (mapApp.map_url xurl []).filterMap
             (fun s => if s = "" then none else some ⟨.text s, []⟩))) ∧
    (lazy_load mapApp true okCtor ⟨xurl, "extract", [], none, none⟩ =
      .ok ([.extractCall [xurl] []],
           if pyStr (mapApp.extract [xurl] []) = "" then []
           else [⟨.text (pyStr (mapApp.extract [xurl] [])), []⟩])) :=
  ⟨map_extract_item_as_content.1 mapApp true okCtor ⟨xurl, "map", [], none, none⟩ rfl
      (by decide),
   map_extract_item_as_content.2.1 mapApp true okCtor ⟨xurl, "extract", [], none, none⟩ rfl
      (by decide)⟩

/-- C7: the api key handed to the external client is the explicit
argument when truthy, otherwise the environment-provided value; when
neither is available, construction still succeeds and the missing key
is passed on to the client (failure deferred), not raised by the
constructor. -/
theorem api_key_resolution :
    (∀ (k : String) (env : Option String), k ≠ "" → resolveApiKey (some k) env = some k) ∧
    (∀ env : Option String, resolveApiKey none env = get_from_env env) ∧
    (∀ env : Option String, resolveApiKey (some "") env = get_from_env env) ∧
    (∀ (a : InitArgs) (env : Option String) (L : Loader),
        init true env a = .ok L → L.api_key = resolveApiKey a.api_key env) ∧
    (∀ url : String, url ≠ "" →
        init true none ⟨url, none, none, "scrape", none⟩ =
          .ok ⟨url, "scrape", [], none, none⟩) := by
  refine ⟨?_, fun env => rfl, fun env => rfl, ?_, ?_⟩
  · intro k env hk
    simp [resolveApiKey, hk]
  · intro a env L h
    rw [init] at h
    by_cases hm : a.mode ∈ allowedModes
    · by_cases hu : a.url = ""
      · simp [hm, hu] at h
      · simp [hm, hu] at h
        rw [← h]
    · simp [hm] at h
  · intro url hu
    rw [init]
    simp [allowedModes, hu, resolveApiKey, get_from_env]

/-- Witness for C7: an explicit key wins over the environment, and with
no explicit key and no environment key construction succeeds with a
missing key handed to the client. -/
theorem api_key_resolution_witness :
    resolveApiKey (some "sk-test") (some "sk-env") = some "sk-test" ∧
    init true none ⟨xurl, none, none, "scrape", none⟩ =
      .ok ⟨xurl, "scrape", [], none, none⟩ :=
  ⟨api_key_resolution.1 "sk-test" (some "sk-env") (by decide),
   api_key_resolution.2.2.2.2 xurl (by decide)⟩

/-- C8 counterexample: crawl mode with a `scrapeOptions` sub-mapping
whose options value cannot be constructed (the type imports but its
constructor raises a validation error) fails with the propagated error
instead of falling back to passing the raw mapping — so "for every case
in which that options value cannot be constructed it falls back
gracefully" is false on the code. -/
theorem crawl_options_no_fallback_on_ctor_error :
    lazy_load crawl3App true failCtor
        (crawlLoader [("scrapeOptions", .dict [("formats", .list [.str "markdown"])])]) =
      .error (.upstream "ValidationError") := rfl

/-- C8 (amended): in crawl mode with a `scrapeOptions` sub-mapping, the
constructed options value is passed when construction succeeds; when
the scrape-options type cannot be imported, the raw `scrapeOptions`
value is passed instead (graceful fallback); but when the type is
available and its constructor fails, the error propagates out of
`lazy_load` with no fallback. -/
theorem crawl_scrape_options_fallback :
    (∀ (ctor : ScrapeOptionsCtor) (ps : Params) (v : PValue),
        plookup ps "scrapeOptions" = some v →
        crawlModeOptions false ctor ps = .ok (some (.raw v))) ∧
    (∀ (ctor : ScrapeOptionsCtor) (ps : Params) (d : List (String × PValue))
        (so : ScrapeOptions),
        plookup ps "scrapeOptions" = some (.dict d) → ctor d = .ok so →
        crawlModeOptions true ctor ps = .ok (some (.opts so))) ∧
    (∀ (ctor : ScrapeOptionsCtor) (ps : Params) (d : List (String × PValue)) (msg : String),
        plookup ps "scrapeOptions" = some (.dict d) → ctor d = .error msg →
        crawlModeOptions true ctor ps = .error (.upstream msg)) ∧
    (∀ (app : FirecrawlApp) (importOK : Bool) (ctor : ScrapeOptionsCtor) (L : Loader)
        (e : LoadError),
        L.mode = "crawl" → L.url ≠ "" →
        crawlModeOptions importOK ctor L.params = .error e →
        lazy_load app importOK ctor L = .error e) := by
  refine ⟨?_, ?_, ?_, ?_⟩
  · intro ctor ps v hv
    simp [crawlModeOptions, hv]
  · intro ctor ps d so hv hc
    simp [crawlModeOptions, hv, hc]
  · intro ctor ps d msg hv hc
    simp [crawlModeOptions, hv, hc]
  · intro app importOK ctor L e hmode hurl hso
    rw [lazy_load]
    simp [hmode, hurl, hso]

/-- Witness for C8 (amended), at a concrete one-entry sub-mapping: import
failure falls back to the raw mapping, success passes the constructed
value, a constructor error propagates, also through `lazy_load`. -/
theorem crawl_scrape_options_fallback_witness :
    crawlModeOptions false okCtor [("scrapeOptions", .dict [])] =
      .ok (some (.raw (.dict []))) ∧
    crawlModeOptions true okCtor [("scrapeOptions", .dict [])] =
      .ok (some (.opts ⟨[]⟩)) ∧
    crawlModeOptions true failCtor [("scrapeOptions", .dict [])] =
      .error (.upstream "ValidationError") ∧
    lazy_load crawl3App true failCtor (crawlLoader [("scrapeOptions", .dict [])]) =
      .error (.upstream "ValidationError") :=
  ⟨crawl_scrape_options_fallback.1 okCtor [("scrapeOptions", .dict [])] (.dict []) rfl,
   crawl_scrape_options_fallback.2.1 okCtor [("scrapeOptions", .dict [])] [] ⟨[]⟩ rfl rfl,
   crawl_scrape_options_fallback.2.2.1 failCtor [("scrapeOptions", .dict [])] []
     "ValidationError" rfl rfl,
   crawl_scrape_options_fallback.2.2.2 crawl3App true failCtor
     (crawlLoader [("scrapeOptions", .dict [])]) (.upstream "ValidationError") rfl
     (by decide) rfl⟩

/-- C9: in search mode the external search call receives its query from
`params["query"]` and additionally the entire params mapping; with
`params={"query": "x"}` the call receives `query="x"`. -/
theorem search_query_passthrough :
    (∀ (app : FirecrawlApp) (importOK : Bool) (ctor : ScrapeOptionsCtor) (L : Loader),
        L.mode = "search" →
        lazy_load app importOK ctor L =
          .ok ([.searchCall (plookup L.params "query") L.params],
               normalize "search"
                 ((app.search (plookup L.params "query") L.params).map FDoc.item))) ∧
    lazy_load searchApp true okCtor ⟨xurl, "search", [("query", .str "x")], none, none⟩ =
      .ok ([.searchCall (some (.str "x")) [("query", .str "x")]],
           [⟨.text "hit", []⟩]) := by
  constructor
  · intro app importOK ctor L hmode
    rw [lazy_load]
    simp [hmode]
  · rfl

/-- Witness for C9: the search conjunct applied at the concrete mock and
`params={"query": "x"}`. -/
theorem search_query_passthrough_witness :
    lazy_load searchApp true okCtor ⟨xurl, "search", [("query", .str "x")], none, none⟩ =
      .ok ([.searchCall (plookup [("query", .str "x")] "query") [("query", .str "x")]],
           normalize "search"
             ((searchApp.search (plookup [("query", .str "x")] "query")
                [("query", .str "x")]).map FDoc.item)) :=
  search_query_passthrough.1 searchApp true okCtor
    ⟨xurl, "search", [("query", .str "x")], none, none⟩ rfl

/-- C10: in scrape mode, when params contains a `scrapeOptions`
sub-mapping but the scrape-options type cannot be imported, `lazy_load`
silently passes `None` as the scrape options to the single-page fetch —
the provided options are dropped without error and without any raw
fallback — unlike crawl mode, which under the same import failure
passes the raw mapping. -/
theorem scrape_options_dropped_on_import_failure :
    (∀ (app : FirecrawlApp) (ctor : ScrapeOptionsCtor) (L : Loader) (v : PValue),
        L.mode = "scrape" → plookup L.params "scrapeOptions" = some v →
        lazy_load app false ctor L =
          .ok ([.scrapeCall L.url none],
               normalize "scrape" [.item (app.scrape_url L.url none)])) ∧
    (∀ (app : FirecrawlApp) (ctor : ScrapeOptionsCtor) (L : Loader) (v : PValue),
        L.mode = "crawl" → L.url ≠ "" → plookup L.params "scrapeOptions" = some v →
        lazy_load app false ctor L =
          .ok ([.crawlCall L.url (buildCrawlKwargs L.params (some (.raw v)))],
               normalize "crawl"
                 (((app.crawl_url L.url
                      (buildCrawlKwargs L.params (some (.raw v)))).getD []).map
                   FDoc.item))) := by
  constructor
  · intro app ctor L v hmode hv
    rw [lazy_load]
    simp [hmode, scrapeModeOptions, hv]
  · intro app ctor L v hmode hurl hv
    rw [lazy_load]
    simp [hmode, hurl, crawlModeOptions, hv]

/-- Witness for C10: concrete scrape and crawl loaders carrying a
`scrapeOptions` sub-mapping, with the import unavailable. -/
theorem scrape_options_dropped_witness :
    (lazy_load scrapeAbcApp false okCtor
        ⟨xurl, "scrape", [("scrapeOptions", .dict [])], none, none⟩ =
      .ok ([.scrapeCall xurl none],
           normalize "scrape" [.item (scrapeAbcApp.scrape_url xurl none)])) ∧
    (lazy_load crawl3App false okCtor (crawlLoader [("scrapeOptions", .dict [])]) =
      .ok ([.crawlCall xurl
              (buildCrawlKwargs [("scrapeOptions", .dict [])] (some (.raw (.dict []))))],
           normalize "crawl"
             (((crawl3App.crawl_url xurl
                  (buildCrawlKwargs [("scrapeOptions", .dict [])]
                    (some (.raw (.dict []))))).getD []).map FDoc.item))) :=
  ⟨scrape_options_dropped_on_import_failure.1 scrapeAbcApp okCtor
      ⟨xurl, "scrape", [("scrapeOptions", .dict [])], none, none⟩ (.dict []) rfl rfl,
   scrape_options_dropped_on_import_failure.2 crawl3App okCtor
      (crawlLoader [("scrapeOptions", .dict [])]) (.dict []) rfl (by decide) rfl⟩

end Firecrawl
